import Mathlib

/-!
Verification of the image-classification demo notebook
(`sagemaker-python-sdk/mxnet_onnx_eia/mxnet_onnx_eia.ipynb`).

The notebook's only non-glue logic is:
  * `preprocess` — the gluon transform pipeline
    `Resize(256) ∘ CenterCrop(224) ∘ ToTensor ∘ Normalize(mean, std)`
    followed by `expand_dims(axis=0)`;
  * the result ranker — `a = np.argsort(scores)[::-1]` followed by
    printing `(labels[i], scores[i])` for `i in a[0:5]`;
  * loading the label file — `labels = [l.rstrip() for l in f]`;
  * the artifact dataflow — `model_data = Session().upload_data(...)`
    passed verbatim to `MXNetModel(model_data=model_data, ...)`.

Pixel values and scores are modelled in exact rational arithmetic (`ℚ`);
image data is modelled as an index function together with explicit
height/width/channel counts.
-/

namespace OnnxEia

/-- A decoded image as produced by `mx.image.imread`: an HWC array of
`uint8` samples.  `pixel row col chan` is the raw sample value. -/
structure RawImage where
  height : ℕ
  width : ℕ
  channels : ℕ
  pixel : ℕ → ℕ → ℕ → ℕ

/-- A CHW tensor of rational samples, as produced by `ToTensor`. -/
structure Tensor3 where
  chans : ℕ
  height : ℕ
  width : ℕ
  val : ℕ → ℕ → ℕ → ℚ

/-- An NCHW tensor, as produced by `expand_dims(axis=0)`. -/
structure Tensor4 where
  batch : ℕ
  chans : ℕ
  height : ℕ
  width : ℕ
  val : ℕ → ℕ → ℕ → ℕ → ℚ

/-- Source coordinate of output pixel `i` when scaling a side of length
`inSize` to length `outSize` (half-pixel-centre convention used by the
bilinear interpolation of `mx.image.imresize`). -/
def srcCoord (outSize inSize i : ℕ) : ℚ :=
  ((i : ℚ) + 1/2) * (inSize : ℚ) / (outSize : ℚ) - 1/2

/-- Round a rational sample back to an integer sample. -/
def roundQ (q : ℚ) : ℕ := (⌊q + 1/2⌋).toNat

/-- Bilinear interpolation of `img` at output pixel `(i, j)`, channel `c`,
for an output of size `outH × outW` (the value computation of
`mx.image.imresize`, in exact rational arithmetic). -/
def bilinearAt (img : RawImage) (outH outW i j c : ℕ) : ℚ :=
  let sy := max 0 (srcCoord outH img.height i)
  let sx := max 0 (srcCoord outW img.width j)
  let y0 := (⌊sy⌋).toNat
  let x0 := (⌊sx⌋).toNat
  let y1 := min (y0 + 1) (img.height - 1)
  let x1 := min (x0 + 1) (img.width - 1)
  let fy := sy - (y0 : ℚ)
  let fx := sx - (x0 : ℚ)
  (1 - fy) * (1 - fx) * (img.pixel y0 x0 c : ℚ)
    + (1 - fy) * fx * (img.pixel y0 x1 c : ℚ)
    + fy * (1 - fx) * (img.pixel y1 x0 c : ℚ)
    + fy * fx * (img.pixel y1 x1 c : ℚ)

/-- `mxnet.gluon.data.vision.transforms.Resize(size)` with the default
`keep_ratio=False`: both the output height and the output width are set
to `size`, regardless of the input aspect ratio. -/
def resize (size : ℕ) (img : RawImage) : RawImage :=
  { height := size
    width := size
    channels := img.channels
    pixel := fun i j c => roundQ (bilinearAt img size size i j c) }

/-- `transforms.CenterCrop(size)`: crop the centred `size × size` window
(top-left corner at `((height - size)/2, (width - size)/2)`). -/
def centerCrop (size : ℕ) (img : RawImage) : RawImage :=
  { height := size
    width := size
    channels := img.channels
    pixel := fun i j c =>
      img.pixel (i + (img.height - size) / 2) (j + (img.width - size) / 2) c }

/-- `transforms.ToTensor()`: convert the HWC integer image to a CHW
tensor of floats in `[0, 1]` by dividing each sample by 255. -/
def toTensor (img : RawImage) : Tensor3 :=
  { chans := img.channels
    height := img.height
    width := img.width
    val := fun c i j => (img.pixel i j c : ℚ) / 255 }

/-- `transforms.Normalize(mean, std)`: per-channel affine normalisation
`(x - mean[c]) / std[c]`. -/
def normalize (mean std : List ℚ) (t : Tensor3) : Tensor3 :=
  { t with val := fun c i j => (t.val c i j - mean.getD c 0) / std.getD c 1 }

/-- `expand_dims(axis=0)`: insert a leading batch dimension of size 1. -/
def expandDims0 (t : Tensor3) : Tensor4 :=
  { batch := 1
    chans := t.chans
    height := t.height
    width := t.width
    val := fun _ c i j => t.val c i j }

/-- The notebook's `preprocess` function:
`Resize(256)`, `CenterCrop(224)`, `ToTensor()`,
`Normalize([0.485, 0.456, 0.406], [0.229, 0.224, 0.225])`,
then `expand_dims(axis=0)`. -/
def preprocess (img : RawImage) : Tensor4 :=
  expandDims0
    (normalize [0.485, 0.456, 0.406] [0.229, 0.224, 0.225]
      (toTensor (centerCrop 224 (resize 256 img))))

/-- Score of index `i` in the score vector (`scores[i]`; indices handed
to it by `argsort` are always in range, `getD` only totalises). -/
def scoreAt (scores : List ℚ) (i : ℕ) : ℚ := scores.getD i 0

/-- Insert index `i` into an (ascending, by score) sorted list of
indices, after any index of equal score — the stable insertion step of
the insertion sort `np.argsort` uses on short arrays. -/
def insertIdx (scores : List ℚ) (i : ℕ) : List ℕ → List ℕ
  | [] => [i]
  | j :: rest =>
      if scoreAt scores i < scoreAt scores j then i :: j :: rest
      else j :: insertIdx scores i rest

/-- `np.argsort(scores)`: the indices `0, …, n-1` sorted so that the
scores they point at are ascending; equal scores keep their original
index order (stable). -/
def argsort (scores : List ℚ) : List ℕ :=
  (List.range scores.length).foldl (fun acc i => insertIdx scores i acc) []

/-- The notebook's result ranker:
`a = np.argsort(scores)[::-1]`, then for `i in a[0:5]` emit
`(labels[i], scores[i])`.  The label lookup `labels[i]` raises
`IndexError` when `i` is out of range; this is modelled by `Option`. -/
def rankTop5 (scores : List ℚ) (labels : List String) :
    Option (List (String × ℚ)) :=
  let a := (argsort scores).reverse
  (a.take 5).mapM fun i => (labels.get? i).map fun l => (l, scoreAt scores i)

/-- Python's `str.rstrip()` on an ASCII line: drop trailing whitespace
(space, tab, newline, carriage return, vertical tab, form feed). -/
def rstrip (s : String) : String :=
  ⟨(s.toList.reverse.dropWhile fun c =>
      c = ' ' ∨ c = '\t' ∨ c = '\n' ∨ c = '\r'
        ∨ c = Char.ofNat 11 ∨ c = Char.ofNat 12).reverse⟩

/-- `labels = [l.rstrip() for l in f]`: the label list is the list of
lines of `synset.txt`, each with trailing whitespace stripped, in file
order. -/
def loadLabels (lines : List String) : List String := lines.map rstrip

/-- The record built by
`MXNetModel(model_data=model_data, entry_point='resnet152.py', role=role,
py_version='py3', framework_version='1.4.1')`. -/
structure MXNetModel where
  model_data : String
  entry_point : String
  role : String
  py_version : String
  framework_version : String

/-- The notebook's artifact dataflow: `upload_data` returns an S3 URI
which is bound to `model_data` and passed verbatim to the `MXNetModel`
constructor. -/
def buildModel (upload : String → String) (path role : String) : MXNetModel :=
  { model_data := upload path
    entry_point := "resnet152.py"
    role := role
    py_version := "py3"
    framework_version := "1.4.1" }

/-- The end-to-end pipeline of the notebook with the remote classifier
abstracted as a function: preprocess the image, classify, rank. -/
def pipeline (img : RawImage) (classify : Tensor4 → List ℚ)
    (labels : List String) : Option (List (String × ℚ)) :=
  rankTop5 (classify (preprocess img)) labels

/-- The resize behaviour the specification describes, for refinement
comparison with `resize`: scale so the shortest side becomes `size`
while the longer side scales proportionally.  Returns the output
`(height, width)` the spec expects. -/
def resizeShortestSideSpec (size : ℕ) (img : RawImage) : ℕ × ℕ :=
  if img.height ≤ img.width then (size, img.width * size / img.height)
  else (img.height * size / img.width, size)

/-- The per-channel normalisation means (0.485, 0.456, 0.406) for
channels (R, G, B), as a function of the channel index. -/
def meanRGB : ℕ → ℚ
  | 0 => 0.485
  | 1 => 0.456
  | _ => 0.406

/-- The per-channel normalisation standard deviations
(0.229, 0.224, 0.225) for channels (R, G, B). -/
def stdRGB : ℕ → ℚ
  | 0 => 0.229
  | 1 => 0.224
  | _ => 0.225

/-- A concrete 256×256 all-zero RGB image (witness input). -/
def zeroImg : RawImage := ⟨256, 256, 3, fun _ _ _ => 0⟩

/-- A concrete 512×256 RGB image, taller than wide (its shortest side
is already 256, so aspect-preserving resizing would leave it 512×256). -/
def tallImg : RawImage := ⟨512, 256, 3, fun _ _ _ => 0⟩

/-- The score vector of the spec's ranker example. -/
def scores6 : List ℚ := [0.1, 0.9, 0.05, 0.02, 0.01, 0.02]

/-- The matching 6 labels of the spec's ranker example. -/
def labels6 : List String := ["c0", "c1", "c2", "c3", "c4", "c5"]

/-- A stub classifier returning a fixed known score vector. -/
def stub0 : Tensor4 → List ℚ := fun _ => scores6

/-- Concrete label-file lines (witness input). -/
def lines0 : List String := ["mallard \t", "duck"]

/-! ## Helper lemmas -/

/-- Stable insertion permutes: inserting index `i` yields a permutation
of `i :: l`. -/
theorem insertIdx_perm (s : List ℚ) (i : ℕ) (l : List ℕ) :
    (insertIdx s i l).Perm (i :: l) := by
  induction l with
  | nil => exact List.Perm.refl _
  | cons j rest ih =>
      by_cases h : scoreAt s i < scoreAt s j
      · simp [insertIdx, h]
      · simp only [insertIdx, if_neg h]
        exact (ih.cons j).trans (List.Perm.swap i j rest)

/-- Folding stable insertion over a list of indices permutes the
concatenation of that list with the accumulator. -/
theorem foldl_insertIdx_perm (s : List ℚ) (l : List ℕ) :
    ∀ acc : List ℕ, (l.foldl (fun a i => insertIdx s i a) acc).Perm (l ++ acc) := by
  induction l with
  | nil => intro acc; simp
  | cons x xs ih =>
      intro acc
      simp only [List.foldl_cons, List.cons_append]
      exact (ih (insertIdx s x acc)).trans
        ((List.Perm.append_left xs (insertIdx_perm s x acc)).trans List.perm_middle)

/-- `argsort` returns a permutation of the index range. -/
theorem argsort_perm_range (s : List ℚ) :
    (argsort s).Perm (List.range s.length) := by
  simpa using foldl_insertIdx_perm s (List.range s.length) []

/-! ## Claim theorems -/

/-- Claim C10: for every score vector, `argsort` returns a permutation
of the vector's indices; hence the first 5 of the reversed order are
`min 5 n` pairwise-distinct indices, all in range. -/
theorem argsort_top5_sound (scores : List ℚ) :
    (argsort scores).Perm (List.range scores.length) ∧
    ((argsort scores).reverse.take 5).length = min 5 scores.length ∧
    ((argsort scores).reverse.take 5).Nodup ∧
    ∀ i ∈ (argsort scores).reverse.take 5, i < scores.length := by
  have hperm := argsort_perm_range scores
  have hlen : (argsort scores).length = scores.length := by
    simpa using hperm.length_eq
  have hnodup : (argsort scores).Nodup :=
    hperm.nodup_iff.mpr (List.nodup_range _)
  refine ⟨hperm, ?_, ?_, ?_⟩
  · simp [List.length_take, hlen]
  · exact (List.take_sublist _ _).nodup (List.nodup_reverse.mpr hnodup)
  · intro i hi
    have h1 : i ∈ (argsort scores).reverse := (List.take_sublist _ _).subset hi
    have h2 : i ∈ List.range scores.length :=
      hperm.mem_iff.mp (List.mem_reverse.mp h1)
    exact List.mem_range.mp h2

/-- Claim C5: for the score vector `[0.9, 0.1]` and the shorter label
list `["a"]` the ranker hits an out-of-range label lookup and fails;
nothing validates the lengths beforehand. -/
theorem rankTop5_length_mismatch_fails :
    ([(0.9 : ℚ), 0.1].length ≠ (["a"] : List String).length) ∧
    rankTop5 [0.9, 0.1] ["a"] = none := by
  constructor
  · decide
  · norm_num [rankTop5, argsort, insertIdx, scoreAt, List.range_succ,
      List.mapM, List.mapM.loop]

/-- Claim C9: the S3 URI returned by the upload is passed verbatim as
`model_data` to the `MXNetModel` constructor, for every upload function
and path. -/
theorem model_data_passthrough (upload : String → String) (path role : String) :
    (buildModel upload path role).model_data = upload path := rfl

/-- Claim C8: the pipeline is deterministic — two runs of preprocess
followed by a stubbed classifier and the ranker, on equal inputs,
produce equal top-5 output; no other state is read. -/
theorem pipeline_deterministic (imgA imgB : RawImage)
    (classifyA classifyB : Tensor4 → List ℚ) (labelsA labelsB : List String)
    (h1 : imgA = imgB) (h2 : classifyA = classifyB) (h3 : labelsA = labelsB) :
    pipeline imgA classifyA labelsA = pipeline imgB classifyB labelsB := by
  subst h1; subst h2; subst h3; rfl

/-- Witness for C8: the determinism theorem applied to the concrete
zero image, the stub classifier and the concrete labels. -/
theorem pipeline_deterministic_witness :
    zeroImg = zeroImg ∧ stub0 = stub0 ∧ labels6 = labels6 ∧
    pipeline zeroImg stub0 labels6 = pipeline zeroImg stub0 labels6 :=
  ⟨rfl, rfl, rfl,
    pipeline_deterministic zeroImg zeroImg stub0 stub0 labels6 labels6 rfl rfl rfl⟩

/-- Claim C1 counterexample: on the 512×256 image, `transforms.Resize(256)`
(default `keep_ratio=False`) produces 256×256, not the 512×256 that
aspect-preserving shortest-side resizing would give. -/
theorem resize_not_shortest_side :
    ((resize 256 tallImg).height, (resize 256 tallImg).width)
      ≠ resizeShortestSideSpec 256 tallImg := by
  decide

/-- Claim C1 (amended): the first step of `preprocess` resizes every
input image to exactly 256×256, not preserving the aspect ratio
(`transforms.Resize(256)` with the default `keep_ratio=False`), and the
224×224 center crop is applied after this resize. -/
theorem resize_fixed_256 (img : RawImage) :
    (resize 256 img).height = 256 ∧ (resize 256 img).width = 256 ∧
    preprocess img =
      expandDims0 (normalize [0.485, 0.456, 0.406] [0.229, 0.224, 0.225]
        (toTensor (centerCrop 224 (resize 256 img)))) :=
  ⟨rfl, rfl, rfl⟩

/-- Claim C2 counterexample: on `[0.1, 0.9, 0.05, 0.02, 0.01, 0.02]`
the ranker's output does not list the tied index 3 before index 5:
`np.argsort` is stable ascending, and the `[::-1]` reversal puts the
later tied index first. -/
theorem rankTop5_tie_order_counterexample :
    rankTop5 scores6 labels6 ≠
      some [("c1", 0.9), ("c0", 0.1), ("c2", 0.05), ("c3", 0.02), ("c5", 0.02)] := by
  norm_num [rankTop5, scores6, labels6, argsort, insertIdx, scoreAt,
    List.range_succ, List.mapM, List.mapM.loop]
  decide

/-- Claim C2 (amended): for the score vector
`[0.1, 0.9, 0.05, 0.02, 0.01, 0.02]` with matching 6 labels, the ranker
outputs exactly 5 (label, score) pairs ordered by descending score,
excluding the single smallest entry, and the two entries tied at 0.02
appear in reversed index order: index 5 before index 3. -/
theorem rankTop5_example :
    rankTop5 scores6 labels6 =
      some [("c1", 0.9), ("c0", 0.1), ("c2", 0.05), ("c5", 0.02), ("c3", 0.02)] ∧
    List.Chain' (fun p q : String × ℚ => q.2 ≤ p.2)
      [("c1", 0.9), ("c0", 0.1), ("c2", 0.05), ("c5", 0.02), ("c3", 0.02)] ∧
    ("c4", (0.01 : ℚ)) ∉
      [("c1", (0.9 : ℚ)), ("c0", 0.1), ("c2", 0.05), ("c5", 0.02), ("c3", 0.02)] := by
  refine ⟨?_, ?_, ?_⟩
  · norm_num [rankTop5, scores6, labels6, argsort, insertIdx, scoreAt,
      List.range_succ, List.mapM, List.mapM.loop]
  · norm_num
  · norm_num

/-- Claim C3: for every 3-channel image whose shortest side is at least
256, `preprocess` returns a tensor of shape exactly (1, 3, 224, 224)
(rational-valued in this model; the batch dimension is added by the
final `expand_dims` step). -/
theorem preprocess_shape (img : RawImage) (hc : img.channels = 3)
    (hmin : 256 ≤ min img.height img.width) :
    (preprocess img).batch = 1 ∧ (preprocess img).chans = 3 ∧
    (preprocess img).height = 224 ∧ (preprocess img).width = 224 := by
  refine ⟨rfl, ?_, rfl, rfl⟩
  simp [preprocess, expandDims0, normalize, toTensor, centerCrop, resize, hc]

/-- Witness for C3: the shape theorem applied to the concrete 256×256
zero image. -/
theorem preprocess_shape_witness :
    (zeroImg.channels = 3 ∧ 256 ≤ min zeroImg.height zeroImg.width) ∧
    ((preprocess zeroImg).batch = 1 ∧ (preprocess zeroImg).chans = 3 ∧
      (preprocess zeroImg).height = 224 ∧ (preprocess zeroImg).width = 224) :=
  ⟨⟨rfl, by decide⟩, preprocess_shape zeroImg rfl (by decide)⟩

/-- Claim C4: for every cropped pixel value p in 0..255 of channel c,
the preprocess output is `(p/255 - mean[c]) / std[c]` with
mean = (0.485, 0.456, 0.406) and std = (0.229, 0.224, 0.225). -/
theorem preprocess_pixel_value (img : RawImage) (c i j : ℕ) (hc : c < 3)
    (hp : (centerCrop 224 (resize 256 img)).pixel i j c ≤ 255) :
    (preprocess img).val 0 c i j =
      (((centerCrop 224 (resize 256 img)).pixel i j c : ℚ) / 255 - meanRGB c)
        / stdRGB c := by
  interval_cases c <;>
    norm_num [preprocess, expandDims0, normalize, toTensor, meanRGB, stdRGB]

/-- Witness for C4: the pixel-value theorem applied to the zero image
at channel 0, pixel (0, 0). -/
theorem preprocess_pixel_value_witness :
    ((0 : ℕ) < 3 ∧ (centerCrop 224 (resize 256 zeroImg)).pixel 0 0 0 ≤ 255) ∧
    (preprocess zeroImg).val 0 0 0 0 =
      (((centerCrop 224 (resize 256 zeroImg)).pixel 0 0 0 : ℚ) / 255 - meanRGB 0)
        / stdRGB 0 :=
  ⟨⟨by decide,
      by norm_num [zeroImg, centerCrop, resize, roundQ, bilinearAt, srcCoord]⟩,
    preprocess_pixel_value zeroImg 0 0 0 (by decide)
      (by norm_num [zeroImg, centerCrop, resize, roundQ, bilinearAt, srcCoord])⟩

/-- Claim C6: normalisation is invertible — multiplying the preprocess
output by std[c] and adding mean[c] recovers the center-cropped,
[0,1]-scaled input exactly (hence within any epsilon). -/
theorem normalize_invertible (img : RawImage) (c i j : ℕ) (hc : c < 3) :
    (preprocess img).val 0 c i j * stdRGB c + meanRGB c =
      ((centerCrop 224 (resize 256 img)).pixel i j c : ℚ) / 255 := by
  interval_cases c <;>
    norm_num [preprocess, expandDims0, normalize, toTensor, meanRGB, stdRGB]

/-- Witness for C6: the inversion theorem applied to the zero image at
channel 0, pixel (0, 0). -/
theorem normalize_invertible_witness :
    (0 : ℕ) < 3 ∧
    (preprocess zeroImg).val 0 0 0 0 * stdRGB 0 + meanRGB 0 =
      ((centerCrop 224 (resize 256 zeroImg)).pixel 0 0 0 : ℚ) / 255 :=
  ⟨by decide, normalize_invertible zeroImg 0 0 0 (by decide)⟩

/-- Claim C7: the label list is the lines of the file with trailing
whitespace stripped, and label i is line i: class index equals line
number. -/
theorem loadLabels_by_line (lines : List String) (i : ℕ) (h : i < lines.length) :
    (loadLabels lines).length = lines.length ∧
    (loadLabels lines)[i]? = some (rstrip lines[i]) := by
  refine ⟨by simp [loadLabels], ?_⟩
  simp [loadLabels, List.getElem?_map, List.getElem?_eq_getElem h]

/-- Witness for C7: the line-indexing theorem applied to a concrete
two-line file at line 0. -/
theorem loadLabels_by_line_witness :
    0 < lines0.length ∧
    ((loadLabels lines0).length = lines0.length ∧
      (loadLabels lines0)[0]? = some (rstrip lines0[0])) :=
  ⟨by decide, loadLabels_by_line lines0 0 (by decide)⟩

end OnnxEia
